import Mathlib

/-!
Verification of the welcome42 contact form: the client-side Form Controller
(src/src/App.tsx) and the server-side Submission Relay (the Deno.serve
handler). The client owns a four-field form, per-field validation, and a
submission status machine; the relay re-validates the payload, checks the
delivery-provider credential, and forwards to the provider.
-/

namespace Welcome42

/-- Characters matched by the JavaScript regex class backslash-s
(whitespace, per ECMA-262), used both by the email pattern's negated
class and by String.prototype.trim. -/
def jsIsSpace (c : Char) : Bool :=
  let n := c.toNat
  n == 0x09 || n == 0x0a || n == 0x0b || n == 0x0c || n == 0x0d || n == 0x20 ||
  n == 0xa0 || n == 0x1680 || (decide (0x2000 ≤ n) && decide (n ≤ 0x200a)) ||
  n == 0x2028 || n == 0x2029 || n == 0x202f || n == 0x205f || n == 0x3000 || n == 0xfeff

/-- JavaScript String.prototype.trim: drop leading and trailing whitespace. -/
def jsTrim (s : String) : String :=
  String.mk (((s.data.dropWhile jsIsSpace).reverse.dropWhile jsIsSpace).reverse)

/-- A character admitted by the regex class negating whitespace and the
at-sign, written in the source as a bracket class over backslash-s and @. -/
def emailAtomChar (c : Char) : Bool :=
  !jsIsSpace c && c != '@'

/-- One-or-more `emailAtomChar`s followed by a continuation match: the
backtracking semantics of the plus quantifier over the negated class. -/
def atomPlusThen (k : List Char → Bool) : List Char → Bool
  | [] => false
  | c :: cs => emailAtomChar c && (k cs || atomPlusThen k cs)

/-- Suffix of the email pattern after the literal dot: one-or-more atom
characters, then end of input. -/
def tailAfterDot (cs : List Char) : Bool :=
  atomPlusThen List.isEmpty cs

/-- Suffix of the email pattern after the at-sign: one-or-more atom
characters, a literal dot, then `tailAfterDot`. -/
def tailAfterAt (cs : List Char) : Bool :=
  atomPlusThen
    (fun ds => match ds with
      | '.' :: rest => tailAfterDot rest
      | _ => false) cs

/-- The email regex of App.tsx line 34 and of the relay (part_000 line 43):
anchored match of one-or-more atom chars, at-sign, one-or-more atom chars,
dot, one-or-more atom chars. -/
def emailRegexAccepts (s : String) : Bool :=
  atomPlusThen
    (fun ds => match ds with
      | '@' :: rest => tailAfterAt rest
      | _ => false) s.data

/-- Client-side validateEmail (App.tsx lines 33-36). -/
def validateEmail (email : String) : Bool :=
  emailRegexAccepts email

/-- Relay-side email re-check (part_000 lines 43-44); the source repeats the
identical regex literal. -/
def relayEmailCheck (email : String) : Bool :=
  emailRegexAccepts email

/-- ContactFormData (App.tsx FormData interface). -/
structure FormData where
  name : String
  email : String
  subject : String
  message : String
deriving DecidableEq

/-- FieldErrors (App.tsx FormErrors interface): per-field optional
human-readable error string; none means the field is currently valid. -/
structure FormErrors where
  name : Option String
  email : Option String
  subject : Option String
  message : Option String
deriving DecidableEq

/-- The four recognized field names. -/
inductive FormField
  | name
  | email
  | subject
  | message
deriving DecidableEq

/-- SubmissionStatus (App.tsx line 19). -/
inductive SubmissionStatus
  | idle
  | loading
  | success
  | error
deriving DecidableEq

def getField (fd : FormData) : FormField → String
  | .name => fd.name
  | .email => fd.email
  | .subject => fd.subject
  | .message => fd.message

def setField (fd : FormData) : FormField → String → FormData
  | .name, v => { fd with name := v }
  | .email, v => { fd with email := v }
  | .subject, v => { fd with subject := v }
  | .message, v => { fd with message := v }

def getError (e : FormErrors) : FormField → Option String
  | .name => e.name
  | .email => e.email
  | .subject => e.subject
  | .message => e.message

def clearError (e : FormErrors) : FormField → FormErrors
  | .name => { e with name := none }
  | .email => { e with email := none }
  | .subject => { e with subject := none }
  | .message => { e with message := none }

/-- The newErrors object built by validateForm (App.tsx lines 39-59):
each field's rule evaluated independently. -/
def computeErrors (fd : FormData) : FormErrors where
  name := if jsTrim fd.name = "" then some "이름을 입력해주세요" else none
  email :=
    if jsTrim fd.email = "" then some "이메일을 입력해주세요"
    else if !validateEmail fd.email then some "올바른 이메일 형식을 입력해주세요"
    else none
  subject := if jsTrim fd.subject = "" then some "제목을 입력해주세요" else none
  message :=
    if jsTrim fd.message = "" then some "메시지를 입력해주세요"
    else if (jsTrim fd.message).length < 10 then some "메시지는 최소 10자 이상 입력해주세요"
    else none

/-- Number of keys assigned in a FormErrors object
(Object.keys(newErrors).length, App.tsx line 62). -/
def errorCount (e : FormErrors) : Nat :=
  (if e.name.isSome then 1 else 0) + (if e.email.isSome then 1 else 0) +
  (if e.subject.isSome then 1 else 0) + (if e.message.isSome then 1 else 0)

/-- validateForm (App.tsx lines 38-63): returns the freshly computed error
mapping it stores via setErrors, and the boolean result. -/
def validateForm (fd : FormData) : FormErrors × Bool :=
  let newErrors := computeErrors fd
  (newErrors, errorCount newErrors == 0)

/-- Full observable state of the Form Controller (App.tsx lines 22-31). -/
structure ClientState where
  form : FormData
  errors : FormErrors
  status : SubmissionStatus
  statusMessage : String
deriving DecidableEq

/-- The initial all-empty ContactFormData, also what the form is reset to on
success (App.tsx lines 22-27 and 89). -/
def emptyFormData : FormData :=
  { name := "", email := "", subject := "", message := "" }

/-- handleInputChange (App.tsx lines 65-73): store the raw value for the
named field; if an error is currently recorded for that field, clear it. -/
def handleInputChange (s : ClientState) (f : FormField) (v : String) : ClientState :=
  let form1 := setField s.form f v
  let errors1 := if (getError s.errors f).isSome then clearError s.errors f else s.errors
  { s with form := form1, errors := errors1 }

/-- Modelled from the spec: sendContactEmail lives in src/lib/supabase,
which is not among the provided sources. Per the spec, the client call
resolves on a successful relay response and rejects with an error on any
relay failure (network failure, non-success response, or thrown error). -/
inductive RelayOutcome
  | ok
  | failed (detail : String)

/-- Outcome of one submit: the resulting client state, the sequence of
status values assigned during the call (after the initial status), and
whether the network call to the relay was made. -/
structure SubmitResult where
  final : ClientState
  statusTrace : List SubmissionStatus
  networkCalled : Bool
deriving DecidableEq

/-- Fixed localized success message (App.tsx line 88). -/
def successMessage : String :=
  "메시지가 성공적으로 전송되었습니다! 빠른 시일 내에 답변드리겠습니다."

/-- Fixed localized failure message (App.tsx line 93). -/
def failureMessage : String :=
  "메시지 전송에 실패했습니다. 잠시 후 다시 시도해주세요."

/-- handleSubmit (App.tsx lines 75-95): run validateForm (which stores the
fresh error mapping); abort if invalid; otherwise status loading, call the
relay, and on success set success status, message and reset the form, on
failure set error status and message. -/
def handleSubmit (s : ClientState) (outcome : RelayOutcome) : SubmitResult :=
  let v := validateForm s.form
  let s1 : ClientState := { s with errors := v.1 }
  if v.2 then
    let s2 : ClientState := { s1 with status := .loading }
    match outcome with
    | .ok =>
        { final := { s2 with
            status := .success,
            statusMessage := successMessage,
            form := emptyFormData },
          statusTrace := [.loading, .success],
          networkCalled := true }
    | .failed _ =>
        { final := { s2 with
            status := .error,
            statusMessage := failureMessage },
          statusTrace := [.loading, .error],
          networkCalled := true }
  else
    { final := s1, statusTrace := [], networkCalled := false }

/-- resetStatus (App.tsx lines 97-100). -/
def resetStatus (s : ClientState) : ClientState :=
  { s with status := .idle, statusMessage := "" }

/-- Parsed relay request body (part_000 EmailRequest): each field is absent
(none) or a string; JavaScript destructuring yields undefined for a
missing key. -/
structure EmailRequest where
  name : Option String
  email : Option String
  subject : Option String
  message : Option String
deriving DecidableEq

/-- JavaScript truthiness of a possibly-absent string: undefined and the
empty string are falsy, any other string truthy (part_000 line 32). -/
def truthyString : Option String → Bool
  | none => false
  | some s => decide (s ≠ "")

/-- An inbound relay request: its method, and its body as parsed by
req.json — none when parsing throws. -/
structure RelayRequest where
  method : String
  body : Option EmailRequest
deriving DecidableEq

/-- Outcome of the fetch to the delivery provider (part_000 lines 101-127):
an ok response carrying an id, a non-ok response whose JSON error body may
carry a message, or a thrown transport error (caught by the outer catch). -/
inductive ProviderResult
  | ok (id : String)
  | httpError (detail : Option String)
  | transportError
deriving DecidableEq

/-- The JSON body of a relay response: the error shapes and the success
shape, which carries the literal success: true flag together with a
message and the provider-issued id (part_000 lines 129-139). -/
inductive RelayBody
  | errorOnly (error : String)
  | errorWithDetails (error details : String)
  | errorWithMessage (error message : String)
  | okBody (message id : String)
deriving DecidableEq

/-- A relay HTTP response: status code and optional JSON body (an OPTIONS
response has a null body). -/
structure RelayResponse where
  status : Nat
  body : Option RelayBody
deriving DecidableEq

/-- Result of one relay invocation: the response, and whether the delivery
provider was called. -/
structure HandleResult where
  response : RelayResponse
  providerCalled : Bool
deriving DecidableEq

/-- The Deno.serve handler (part_000 lines 10-155), parameterized by the
RESEND_API_KEY environment value and by the delivery provider's behaviour. -/
def serveHandler (req : RelayRequest) (resendApiKey : Option String)
    (provider : ProviderResult) : HandleResult :=
  if req.method = "OPTIONS" then
    { response := { status := 200, body := none }, providerCalled := false }
  else if req.method ≠ "POST" then
    { response := { status := 405, body := some (.errorOnly "Method not allowed") },
      providerCalled := false }
  else
    match req.body with
    | none =>
        { response :=
            { status := 500,
              body := some (.errorWithMessage "Internal server error" "메일 전송 중 오류가 발생했습니다.") },
          providerCalled := false }
    | some er =>
      if !truthyString er.name || !truthyString er.email ||
          !truthyString er.subject || !truthyString er.message then
        { response := { status := 400, body := some (.errorOnly "All fields are required") },
          providerCalled := false }
      else if !relayEmailCheck (er.email.getD "") then
        { response := { status := 400, body := some (.errorOnly "Invalid email format") },
          providerCalled := false }
      else
        match resendApiKey with
        | none =>
            { response := { status := 500, body := some (.errorOnly "Email service not configured") },
              providerCalled := false }
        | some _ =>
            match provider with
            | .ok id =>
                { response :=
                    { status := 200,
                      body := some (.okBody "메일이 성공적으로 전송되었습니다!" id) },
                  providerCalled := true }
            | .httpError detail =>
                { response :=
                    { status := 500,
                      body := some (.errorWithDetails "Failed to send email" (detail.getD "Unknown error")) },
                  providerCalled := true }
            | .transportError =>
                { response :=
                    { status := 500,
                      body := some (.errorWithMessage "Internal server error" "메일 전송 중 오류가 발생했습니다.") },
                  providerCalled := true }

/-- A backtracking plus-match succeeds exactly when a nonempty prefix of
atom characters can be split off with the continuation accepting the
remainder. -/
theorem atomPlusThen_iff (k : List Char → Bool) (cs : List Char) :
    atomPlusThen k cs = true ↔
      ∃ p q, cs = p ++ q ∧ p ≠ [] ∧ p.all emailAtomChar = true ∧ k q = true := by
  induction cs with
  | nil =>
      constructor
      · intro h; simp [atomPlusThen] at h
      · rintro ⟨p, q, hpq, hp, -, -⟩
        exact absurd (List.append_eq_nil.mp hpq.symm).1 hp
  | cons c cs ih =>
      simp only [atomPlusThen, Bool.and_eq_true, Bool.or_eq_true]
      constructor
      · rintro ⟨hc, hk | hrec⟩
        · exact ⟨[c], cs, rfl, by simp, by simp [hc], hk⟩
        · obtain ⟨p, q, hpq, hp, hall, hkq⟩ := ih.mp hrec
          refine ⟨c :: p, q, by simp [hpq], by simp, ?_, hkq⟩
          simp [List.all_cons, hc, hall]
      · rintro ⟨p, q, hpq, hp, hall, hkq⟩
        cases p with
        | nil => exact absurd rfl hp
        | cons d p' =>
            rw [List.cons_append] at hpq
            injection hpq with hcd hcs
            subst hcd
            rw [List.all_cons, Bool.and_eq_true] at hall
            refine ⟨hall.1, ?_⟩
            cases p' with
            | nil => exact Or.inl (by subst hcs; simpa using hkq)
            | cons e p'' =>
                exact Or.inr (ih.mpr ⟨e :: p'', q, hcs, by simp, hall.2, hkq⟩)

/-- The part of the email pattern after the dot matches exactly the
nonempty all-atom suffixes. -/
theorem tailAfterDot_iff (cs : List Char) :
    tailAfterDot cs = true ↔ cs ≠ [] ∧ cs.all emailAtomChar = true := by
  rw [tailAfterDot, atomPlusThen_iff]
  constructor
  · rintro ⟨p, q, rfl, hp, hall, hq⟩
    have hq' : q = [] := by simpa using hq
    subst hq'
    rw [List.append_nil]
    exact ⟨hp, hall⟩
  · rintro ⟨h1, h2⟩
    exact ⟨cs, [], (List.append_nil cs).symm, h1, h2, rfl⟩

/-- The part of the email pattern after the at-sign matches exactly the
strings shaped as nonempty atoms, a dot, then nonempty atoms. -/
theorem tailAfterAt_iff (cs : List Char) :
    tailAfterAt cs = true ↔
      ∃ b c, cs = b ++ '.' :: c ∧ b ≠ [] ∧ b.all emailAtomChar = true ∧
        c ≠ [] ∧ c.all emailAtomChar = true := by
  rw [tailAfterAt, atomPlusThen_iff]
  constructor
  · rintro ⟨p, q, rfl, hp, hall, hq⟩
    split at hq
    next rest =>
        rw [tailAfterDot_iff] at hq
        exact ⟨p, rest, rfl, hp, hall, hq.1, hq.2⟩
    next => exact absurd hq (by simp)
  · rintro ⟨b, c, rfl, hb, hball, hc, hcall⟩
    refine ⟨b, '.' :: c, rfl, hb, hball, ?_⟩
    show tailAfterDot c = true
    exact (tailAfterDot_iff c).mpr ⟨hc, hcall⟩

/-- Full characterization of the email regex: anchored decomposition into
nonempty atom runs around the at-sign and a dot after it. -/
theorem emailRegexAccepts_iff (s : String) :
    emailRegexAccepts s = true ↔
      ∃ a b c, s.data = a ++ '@' :: (b ++ '.' :: c) ∧
        a ≠ [] ∧ a.all emailAtomChar = true ∧
        b ≠ [] ∧ b.all emailAtomChar = true ∧
        c ≠ [] ∧ c.all emailAtomChar = true := by
  rw [emailRegexAccepts, atomPlusThen_iff]
  constructor
  · rintro ⟨p, q, hpq, hp, hall, hq⟩
    split at hq
    next rest =>
        rw [tailAfterAt_iff] at hq
        obtain ⟨b, c, hbc, hb, hball, hc, hcall⟩ := hq
        exact ⟨p, b, c, by rw [hpq, hbc], hp, hall, hb, hball, hc, hcall⟩
    next => exact absurd hq (by simp)
  · rintro ⟨a, b, c, hdata, ha, haall, hb, hball, hc, hcall⟩
    refine ⟨a, '@' :: (b ++ '.' :: c), hdata, ha, haall, ?_⟩
    show tailAfterAt (b ++ '.' :: c) = true
    exact (tailAfterAt_iff _).mpr ⟨b, c, rfl, hb, hball, hc, hcall⟩

/-- Dropping non-at-sign characters over a run of atom characters reaches
the at-sign. -/
theorem dropWhile_append_atoms (a r : List Char) (h : a.all emailAtomChar = true) :
    (a ++ '@' :: r).dropWhile (fun c => c != '@') = '@' :: r := by
  induction a with
  | nil => simp [List.dropWhile_cons]
  | cons c a ih =>
      rw [List.all_cons, Bool.and_eq_true] at h
      have h1 := h.1
      rw [emailAtomChar, Bool.and_eq_true] at h1
      simp [List.dropWhile_cons, h1.2, ih h.2]

/-- Trimming a whitespace-only string yields the empty string. -/
theorem jsTrim_all_space (s : String) (h : s.data.all jsIsSpace = true) :
    jsTrim s = "" := by
  have h1 : s.data.dropWhile jsIsSpace = [] := by
    rw [List.dropWhile_eq_nil_iff]
    intro x hx
    exact (List.all_eq_true.mp h x hx)
  rw [jsTrim, h1]
  rfl

/-- The key count of a FormErrors object is zero exactly when every field
is error-free. -/
theorem errorCount_eq_zero_iff (e : FormErrors) :
    errorCount e = 0 ↔
      e.name = none ∧ e.email = none ∧ e.subject = none ∧ e.message = none := by
  rcases e with ⟨n, m, t, g⟩
  cases n <;> cases m <;> cases t <;> cases g <;> simp [errorCount]

/-- C6: for a submission that passes validation and whose relay call fails,
submit sets status error with the fixed localized failure message, leaves
all four field values unchanged (not cleared), makes the network call, and
the shown message does not depend on the underlying error detail. -/
theorem submit_failure_preserves_fields (s : ClientState) (d : String)
    (h : (validateForm s.form).2 = true) :
    (handleSubmit s (.failed d)).final.status = .error ∧
    (handleSubmit s (.failed d)).final.statusMessage = failureMessage ∧
    (handleSubmit s (.failed d)).final.form = s.form ∧
    (handleSubmit s (.failed d)).networkCalled = true := by
  simp [handleSubmit, h]

theorem submit_failure_preserves_fields_witness :
    (handleSubmit ⟨⟨"Kim", "a@b.c", "Hello", "1234567890"⟩, ⟨none, none, none, none⟩, .idle, ""⟩
        (.failed "boom")).final.status = .error ∧
    (handleSubmit ⟨⟨"Kim", "a@b.c", "Hello", "1234567890"⟩, ⟨none, none, none, none⟩, .idle, ""⟩
        (.failed "boom")).final.statusMessage = failureMessage ∧
    (handleSubmit ⟨⟨"Kim", "a@b.c", "Hello", "1234567890"⟩, ⟨none, none, none, none⟩, .idle, ""⟩
        (.failed "boom")).final.form = ⟨"Kim", "a@b.c", "Hello", "1234567890"⟩ ∧
    (handleSubmit ⟨⟨"Kim", "a@b.c", "Hello", "1234567890"⟩, ⟨none, none, none, none⟩, .idle, ""⟩
        (.failed "boom")).networkCalled = true :=
  submit_failure_preserves_fields
    ⟨⟨"Kim", "a@b.c", "Hello", "1234567890"⟩, ⟨none, none, none, none⟩, .idle, ""⟩
    "boom" (by decide)

/-- C7: for a message that is non-empty after trimming, validateForm
records the too-short error exactly when the trimmed length is below 10
characters, and a trimmed length of exactly 10 yields no message error. -/
theorem message_too_short_rule (fd : FormData) (h : jsTrim fd.message ≠ "") :
    ((computeErrors fd).message = some "메시지는 최소 10자 이상 입력해주세요" ↔
      (jsTrim fd.message).length < 10) ∧
    ((jsTrim fd.message).length = 10 → (computeErrors fd).message = none) := by
  constructor
  · constructor
    · intro hm
      by_contra hlen
      simp [computeErrors, h, hlen] at hm
    · intro hlen
      simp [computeErrors, h, hlen]
  · intro hlen
    simp [computeErrors, h, hlen]

theorem message_too_short_rule_witness :
    ((computeErrors ⟨"", "", "", "123456789"⟩).message =
        some "메시지는 최소 10자 이상 입력해주세요" ↔
      (jsTrim (FormData.mk "" "" "" "123456789").message).length < 10) ∧
    ((jsTrim (FormData.mk "" "" "" "123456789").message).length = 10 →
      (computeErrors ⟨"", "", "", "123456789"⟩).message = none) :=
  message_too_short_rule ⟨"", "", "", "123456789"⟩ (by decide)

/-- C8: updateField stores the raw value verbatim for the named field,
leaves the other field values unchanged, leaves the named field with no
recorded error afterwards, leaves the other fields' errors unchanged, and
does not touch the submission status or status message. -/
theorem updateField_behavior (s : ClientState) (f : FormField) (v : String) :
    getField (handleInputChange s f v).form f = v ∧
    (∀ g, g ≠ f → getField (handleInputChange s f v).form g = getField s.form g) ∧
    getError (handleInputChange s f v).errors f = none ∧
    (∀ g, g ≠ f → getError (handleInputChange s f v).errors g = getError s.errors g) ∧
    (handleInputChange s f v).status = s.status ∧
    (handleInputChange s f v).statusMessage = s.statusMessage := by
  refine ⟨?_, ?_, ?_, ?_, rfl, rfl⟩
  · cases f <;> rfl
  · intro g hg
    cases f <;> cases g <;> simp_all [handleInputChange, getField, setField]
  · by_cases h : (getError s.errors f).isSome
    · cases f <;> simp only [getError] at h <;>
        simp [handleInputChange, h, getError, clearError]
    · rw [Option.not_isSome_iff_eq_none] at h
      cases f <;> simp_all [handleInputChange, getError]
  · intro g hg
    by_cases h : (getError s.errors f).isSome
    · cases f <;> cases g <;> simp_all [handleInputChange, getError, clearError]
    · simp [handleInputChange, h]

theorem updateField_behavior_witness :
    getField (handleInputChange ⟨emptyFormData, ⟨some "e", none, none, none⟩, .idle, ""⟩
        .name "Kim").form .name = "Kim" ∧
    getError (handleInputChange ⟨emptyFormData, ⟨some "e", none, none, none⟩, .idle, ""⟩
        .name "Kim").errors .name = none ∧
    getError (handleInputChange ⟨emptyFormData, ⟨some "e", none, none, none⟩, .idle, ""⟩
        .name "Kim").errors .email =
      getError (FormErrors.mk (some "e") none none none) .email :=
  ⟨(updateField_behavior ⟨emptyFormData, ⟨some "e", none, none, none⟩, .idle, ""⟩ .name "Kim").1,
   (updateField_behavior ⟨emptyFormData, ⟨some "e", none, none, none⟩, .idle, ""⟩ .name "Kim").2.2.1,
   (updateField_behavior ⟨emptyFormData, ⟨some "e", none, none, none⟩, .idle, ""⟩ .name "Kim").2.2.2.1
     .email (by decide)⟩

/-- C9: resetStatus sets status to idle and clears the status message while
leaving form field values and field errors unchanged, and calling it when
the status is already idle with an empty message changes nothing. -/
theorem resetStatus_idempotent (s : ClientState) :
    (resetStatus s).status = .idle ∧ (resetStatus s).statusMessage = "" ∧
    (resetStatus s).form = s.form ∧ (resetStatus s).errors = s.errors ∧
    (s.status = .idle → s.statusMessage = "" → resetStatus s = s) := by
  refine ⟨rfl, rfl, rfl, rfl, ?_⟩
  intro h1 h2
  cases s
  simp_all [resetStatus]

theorem resetStatus_idempotent_witness :
    resetStatus ⟨emptyFormData, ⟨none, none, none, none⟩, .idle, ""⟩ =
      ⟨emptyFormData, ⟨none, none, none, none⟩, .idle, ""⟩ :=
  (resetStatus_idempotent ⟨emptyFormData, ⟨none, none, none, none⟩, .idle, ""⟩).2.2.2.2 rfl rfl

/-- C2: when validation fails, submit makes no network call and leaves the
status, status message and field values unchanged, storing only the freshly
computed field errors; and an empty field always produces an error for that
field, so when the other three fields compute no error exactly one field
error is recorded. -/
theorem submit_invalid_aborts :
    (∀ (s : ClientState) (o : RelayOutcome), (validateForm s.form).2 = false →
      (handleSubmit s o).networkCalled = false ∧
      (handleSubmit s o).final.status = s.status ∧
      (handleSubmit s o).final.statusMessage = s.statusMessage ∧
      (handleSubmit s o).final.form = s.form ∧
      (handleSubmit s o).final.errors = computeErrors s.form) ∧
    (∀ (fd : FormData) (f : FormField), getField fd f = "" →
      (∀ g, g ≠ f → getError (computeErrors fd) g = none) →
      errorCount (computeErrors fd) = 1) := by
  constructor
  · intro s o h
    rw [validateForm] at h
    simp only [beq_eq_false_iff_ne, ne_eq] at h
    simp [handleSubmit, validateForm, h]
  · intro fd f hf hothers
    have hj : jsTrim "" = "" := by decide
    cases f with
    | name =>
        have he := hothers .email (by decide)
        have hsu := hothers .subject (by decide)
        have hm := hothers .message (by decide)
        simp only [getError] at he hsu hm
        simp only [getField] at hf
        have hn : (computeErrors fd).name = some "이름을 입력해주세요" := by
          simp [computeErrors, hf, hj]
        simp [errorCount, hn, he, hsu, hm]
    | email =>
        have hn := hothers .name (by decide)
        have hsu := hothers .subject (by decide)
        have hm := hothers .message (by decide)
        simp only [getError] at hn hsu hm
        simp only [getField] at hf
        have he : (computeErrors fd).email = some "이메일을 입력해주세요" := by
          simp [computeErrors, hf, hj]
        simp [errorCount, hn, he, hsu, hm]
    | subject =>
        have hn := hothers .name (by decide)
        have he := hothers .email (by decide)
        have hm := hothers .message (by decide)
        simp only [getError] at hn he hm
        simp only [getField] at hf
        have hsu : (computeErrors fd).subject = some "제목을 입력해주세요" := by
          simp [computeErrors, hf, hj]
        simp [errorCount, hn, he, hsu, hm]
    | message =>
        have hn := hothers .name (by decide)
        have he := hothers .email (by decide)
        have hsu := hothers .subject (by decide)
        simp only [getError] at hn he hsu
        simp only [getField] at hf
        have hm : (computeErrors fd).message = some "메시지를 입력해주세요" := by
          simp [computeErrors, hf, hj]
        simp [errorCount, hn, he, hsu, hm]

theorem submit_invalid_aborts_witness :
    ((handleSubmit ⟨⟨"", "a@b.c", "Hi", "1234567890"⟩, ⟨none, none, none, none⟩, .idle, ""⟩
        .ok).networkCalled = false ∧
      (handleSubmit ⟨⟨"", "a@b.c", "Hi", "1234567890"⟩, ⟨none, none, none, none⟩, .idle, ""⟩
        .ok).final.status = SubmissionStatus.idle ∧
      (handleSubmit ⟨⟨"", "a@b.c", "Hi", "1234567890"⟩, ⟨none, none, none, none⟩, .idle, ""⟩
        .ok).final.statusMessage = "" ∧
      (handleSubmit ⟨⟨"", "a@b.c", "Hi", "1234567890"⟩, ⟨none, none, none, none⟩, .idle, ""⟩
        .ok).final.form = ⟨"", "a@b.c", "Hi", "1234567890"⟩ ∧
      (handleSubmit ⟨⟨"", "a@b.c", "Hi", "1234567890"⟩, ⟨none, none, none, none⟩, .idle, ""⟩
        .ok).final.errors = computeErrors ⟨"", "a@b.c", "Hi", "1234567890"⟩) ∧
    errorCount (computeErrors ⟨"", "a@b.c", "Hi", "1234567890"⟩) = 1 :=
  ⟨submit_invalid_aborts.1
      ⟨⟨"", "a@b.c", "Hi", "1234567890"⟩, ⟨none, none, none, none⟩, .idle, ""⟩ .ok (by decide),
   submit_invalid_aborts.2 ⟨"", "a@b.c", "Hi", "1234567890"⟩ .name (by decide)
      (by intro g hg; cases g <;> first | (exact absurd rfl hg) | decide)⟩

/-- C5: the four field rules are evaluated independently (changing one
field never changes another field's computed error), validateForm returns
true exactly when no field produced an error, and submit always replaces
the stored error mapping with the freshly computed one, whatever the
previous mapping was. -/
theorem validateForm_independent_complete :
    (∀ (fd : FormData) (f g : FormField) (v : String), f ≠ g →
      getError (computeErrors (setField fd f v)) g = getError (computeErrors fd) g) ∧
    (∀ fd : FormData, (validateForm fd).2 = true ↔
      ∀ f, getError (computeErrors fd) f = none) ∧
    (∀ (s : ClientState) (o : RelayOutcome),
      (handleSubmit s o).final.errors = computeErrors s.form) := by
  refine ⟨?_, ?_, ?_⟩
  · intro fd f g v hfg
    cases f <;> cases g <;>
      first
        | exact absurd rfl hfg
        | simp [computeErrors, getError, setField]
  · intro fd
    rw [validateForm]
    simp only [beq_iff_eq]
    rw [errorCount_eq_zero_iff]
    constructor
    · rintro ⟨h1, h2, h3, h4⟩ f
      cases f <;> simp [getError, h1, h2, h3, h4]
    · intro h
      exact ⟨h .name, h .email, h .subject, h .message⟩
  · intro s o
    cases o <;> simp only [handleSubmit, validateForm] <;> split <;> rfl

theorem validateForm_independent_complete_witness :
    (getError (computeErrors (setField emptyFormData .name "x")) .email =
      getError (computeErrors emptyFormData) .email) ∧
    ((validateForm emptyFormData).2 = true ↔
      ∀ f, getError (computeErrors emptyFormData) f = none) :=
  ⟨validateForm_independent_complete.1 emptyFormData .name .email "x" (by decide),
   validateForm_independent_complete.2.1 emptyFormData⟩

/-- C1: with all four fields passing validation and the relay call
succeeding, submit moves the status from idle through loading to success,
sets the fixed localized success message, and resets all four fields to the
empty string; and the relay's success response is a 200 whose body is the
success shape carrying its message and the provider-issued identifier. -/
theorem submit_success_flow :
    (∀ s : ClientState, s.status = .idle → (validateForm s.form).2 = true →
      (handleSubmit s .ok).statusTrace = [.loading, .success] ∧
      (handleSubmit s .ok).final.status = .success ∧
      (handleSubmit s .ok).final.statusMessage = successMessage ∧
      (handleSubmit s .ok).final.form = emptyFormData ∧
      (handleSubmit s .ok).networkCalled = true) ∧
    (∀ (er : EmailRequest) (key id : String),
      truthyString er.name = true → truthyString er.email = true →
      truthyString er.subject = true → truthyString er.message = true →
      relayEmailCheck (er.email.getD "") = true →
      serveHandler ⟨"POST", some er⟩ (some key) (.ok id) =
        ⟨⟨200, some (.okBody "메일이 성공적으로 전송되었습니다!" id)⟩, true⟩) := by
  constructor
  · intro s hidle h
    simp [handleSubmit, h]
  · intro er key id h1 h2 h3 h4 hem
    simp [serveHandler, h1, h2, h3, h4, hem]

theorem submit_success_flow_witness :
    ((handleSubmit ⟨⟨"Kim", "a@b.c", "Hi", "1234567890"⟩, ⟨none, none, none, none⟩, .idle, ""⟩
        .ok).statusTrace = [.loading, .success] ∧
      (handleSubmit ⟨⟨"Kim", "a@b.c", "Hi", "1234567890"⟩, ⟨none, none, none, none⟩, .idle, ""⟩
        .ok).final.status = SubmissionStatus.success ∧
      (handleSubmit ⟨⟨"Kim", "a@b.c", "Hi", "1234567890"⟩, ⟨none, none, none, none⟩, .idle, ""⟩
        .ok).final.statusMessage = successMessage ∧
      (handleSubmit ⟨⟨"Kim", "a@b.c", "Hi", "1234567890"⟩, ⟨none, none, none, none⟩, .idle, ""⟩
        .ok).final.form = emptyFormData ∧
      (handleSubmit ⟨⟨"Kim", "a@b.c", "Hi", "1234567890"⟩, ⟨none, none, none, none⟩, .idle, ""⟩
        .ok).networkCalled = true) ∧
    serveHandler ⟨"POST", some ⟨some "Kim", some "a@b.c", some "Hi", some "1234567890"⟩⟩
        (some "k") (.ok "id1") =
      ⟨⟨200, some (.okBody "메일이 성공적으로 전송되었습니다!" "id1")⟩, true⟩ :=
  ⟨submit_success_flow.1
      ⟨⟨"Kim", "a@b.c", "Hi", "1234567890"⟩, ⟨none, none, none, none⟩, .idle, ""⟩
      rfl (by decide),
   submit_success_flow.2 ⟨some "Kim", some "a@b.c", some "Hi", some "1234567890"⟩
      "k" "id1" (by decide) (by decide) (by decide) (by decide) (by decide)⟩

/-- C3: the relay short-circuits in order: an OPTIONS request yields a 200
with no body and no provider call regardless of payload and configuration;
any other non-POST method yields a 405; a parsed body with a missing or
empty field yields a 400 all-fields-required; a well-filled body whose
email fails the shape check yields a 400 invalid-email; and an absent
delivery-provider credential yields a 500 not-configured; in every one of
these cases the delivery provider is never called. -/
theorem relay_short_circuit_order :
    (∀ (b : Option EmailRequest) (key : Option String) (p : ProviderResult),
      serveHandler ⟨"OPTIONS", b⟩ key p = ⟨⟨200, none⟩, false⟩) ∧
    (∀ (m : String) (b : Option EmailRequest) (key : Option String) (p : ProviderResult),
      m ≠ "OPTIONS" → m ≠ "POST" →
      serveHandler ⟨m, b⟩ key p =
        ⟨⟨405, some (.errorOnly "Method not allowed")⟩, false⟩) ∧
    (∀ (er : EmailRequest) (key : Option String) (p : ProviderResult),
      (truthyString er.name = false ∨ truthyString er.email = false ∨
        truthyString er.subject = false ∨ truthyString er.message = false) →
      serveHandler ⟨"POST", some er⟩ key p =
        ⟨⟨400, some (.errorOnly "All fields are required")⟩, false⟩) ∧
    (∀ (er : EmailRequest) (key : Option String) (p : ProviderResult),
      truthyString er.name = true → truthyString er.email = true →
      truthyString er.subject = true → truthyString er.message = true →
      relayEmailCheck (er.email.getD "") = false →
      serveHandler ⟨"POST", some er⟩ key p =
        ⟨⟨400, some (.errorOnly "Invalid email format")⟩, false⟩) ∧
    (∀ (er : EmailRequest) (p : ProviderResult),
      truthyString er.name = true → truthyString er.email = true →
      truthyString er.subject = true → truthyString er.message = true →
      relayEmailCheck (er.email.getD "") = true →
      serveHandler ⟨"POST", some er⟩ none p =
        ⟨⟨500, some (.errorOnly "Email service not configured")⟩, false⟩) := by
  refine ⟨?_, ?_, ?_, ?_, ?_⟩
  · intro b key p
    simp [serveHandler]
  · intro m b key p h1 h2
    simp [serveHandler, h1, h2]
  · rintro er key p (h | h | h | h) <;> simp [serveHandler, h]
  · intro er key p h1 h2 h3 h4 hem
    simp [serveHandler, h1, h2, h3, h4, hem]
  · intro er p h1 h2 h3 h4 hem
    simp [serveHandler, h1, h2, h3, h4, hem]

theorem relay_short_circuit_order_witness :
    serveHandler ⟨"OPTIONS", none⟩ none .transportError = ⟨⟨200, none⟩, false⟩ ∧
    serveHandler ⟨"GET", none⟩ none .transportError =
      ⟨⟨405, some (.errorOnly "Method not allowed")⟩, false⟩ ∧
    serveHandler ⟨"POST", some ⟨some "", some "a@b.c", some "x", some "y"⟩⟩ none .transportError =
      ⟨⟨400, some (.errorOnly "All fields are required")⟩, false⟩ ∧
    serveHandler ⟨"POST", some ⟨some "a", some "nomail", some "x", some "y"⟩⟩ none .transportError =
      ⟨⟨400, some (.errorOnly "Invalid email format")⟩, false⟩ ∧
    serveHandler ⟨"POST", some ⟨some "a", some "a@b.c", some "x", some "y"⟩⟩ none .transportError =
      ⟨⟨500, some (.errorOnly "Email service not configured")⟩, false⟩ :=
  ⟨relay_short_circuit_order.1 none none .transportError,
   relay_short_circuit_order.2.1 "GET" none none .transportError (by decide) (by decide),
   relay_short_circuit_order.2.2.1 ⟨some "", some "a@b.c", some "x", some "y"⟩ none
     .transportError (Or.inl (by decide)),
   relay_short_circuit_order.2.2.2.1 ⟨some "a", some "nomail", some "x", some "y"⟩ none
     .transportError (by decide) (by decide) (by decide) (by decide) (by decide),
   relay_short_circuit_order.2.2.2.2 ⟨some "a", some "a@b.c", some "x", some "y"⟩
     .transportError (by decide) (by decide) (by decide) (by decide) (by decide)⟩

/-- C4: the client's email check and the relay's re-check accept exactly
the same strings; any string without an at-sign, or without a dot after
the at-sign, is rejected by both; and "a@b.c" is accepted by both. -/
theorem email_checks_agree :
    (∀ s : String, validateEmail s = relayEmailCheck s) ∧
    (∀ s : String, '@' ∉ s.data → validateEmail s = false ∧ relayEmailCheck s = false) ∧
    (∀ s : String, '.' ∉ (s.data.dropWhile (fun c => c != '@')).drop 1 →
      validateEmail s = false ∧ relayEmailCheck s = false) ∧
    validateEmail "a@b.c" = true ∧ relayEmailCheck "a@b.c" = true := by
  refine ⟨fun s => rfl, ?_, ?_, by decide, by decide⟩
  · intro s h
    have key : validateEmail s = false := by
      cases hv : validateEmail s with
      | false => rfl
      | true =>
          rw [validateEmail] at hv
          obtain ⟨a, b, c, hd, -⟩ := (emailRegexAccepts_iff s).mp hv
          exact absurd (by rw [hd]; simp) h
    exact ⟨key, key⟩
  · intro s h
    have key : validateEmail s = false := by
      cases hv : validateEmail s with
      | false => rfl
      | true =>
          rw [validateEmail] at hv
          obtain ⟨a, b, c, hd, ha, haall, hb, hball, hc, hcall⟩ :=
            (emailRegexAccepts_iff s).mp hv
          apply absurd _ h
          rw [hd, dropWhile_append_atoms a _ haall]
          simp
    exact ⟨key, key⟩

theorem email_checks_agree_witness :
    (validateEmail "abc" = false ∧ relayEmailCheck "abc" = false) ∧
    (validateEmail "a@bc" = false ∧ relayEmailCheck "a@bc" = false) :=
  ⟨email_checks_agree.2.1 "abc" (by decide),
   email_checks_agree.2.2.1 "a@bc" (by decide)⟩

/-- C10: the relay's required-fields check tests raw truthiness without
trimming: a POST whose name, subject and message are nonempty whitespace-only
strings and whose email passes the shape check is not rejected as missing
fields and is forwarded to the delivery provider, while the client-side
validateForm rejects those very values with required-field errors and
returns false. -/
theorem relay_raw_truthiness_gap (w1 w2 w3 email key : String) (p : ProviderResult)
    (h1 : w1 ≠ "") (h2 : w2 ≠ "") (h3 : w3 ≠ "")
    (hs1 : w1.data.all jsIsSpace = true) (hs2 : w2.data.all jsIsSpace = true)
    (hs3 : w3.data.all jsIsSpace = true)
    (hem : emailRegexAccepts email = true) :
    (serveHandler ⟨"POST", some ⟨some w1, some email, some w2, some w3⟩⟩
        (some key) p).providerCalled = true ∧
    (serveHandler ⟨"POST", some ⟨some w1, some email, some w2, some w3⟩⟩
        (some key) p).response.body ≠ some (.errorOnly "All fields are required") ∧
    (computeErrors ⟨w1, email, w2, w3⟩).name = some "이름을 입력해주세요" ∧
    (computeErrors ⟨w1, email, w2, w3⟩).subject = some "제목을 입력해주세요" ∧
    (computeErrors ⟨w1, email, w2, w3⟩).message = some "메시지를 입력해주세요" ∧
    (validateForm ⟨w1, email, w2, w3⟩).2 = false := by
  have hemail : email ≠ "" := by
    intro he
    rw [he] at hem
    simp [emailRegexAccepts, atomPlusThen] at hem
  have ht1 : jsTrim w1 = "" := jsTrim_all_space w1 hs1
  have ht2 : jsTrim w2 = "" := jsTrim_all_space w2 hs2
  have ht3 : jsTrim w3 = "" := jsTrim_all_space w3 hs3
  have hn : (computeErrors ⟨w1, email, w2, w3⟩).name = some "이름을 입력해주세요" := by
    simp [computeErrors, ht1]
  have hsu : (computeErrors ⟨w1, email, w2, w3⟩).subject = some "제목을 입력해주세요" := by
    simp [computeErrors, ht2]
  have hm : (computeErrors ⟨w1, email, w2, w3⟩).message = some "메시지를 입력해주세요" := by
    simp [computeErrors, ht3]
  have hcount : errorCount (computeErrors ⟨w1, email, w2, w3⟩) ≠ 0 := by
    rw [errorCount, hn]
    simp only [Option.isSome_some, if_true]
    omega
  refine ⟨?_, ?_, hn, hsu, hm, ?_⟩
  · cases p <;> simp [serveHandler, truthyString, h1, h2, h3, hemail, relayEmailCheck, hem]
  · cases p <;> simp [serveHandler, truthyString, h1, h2, h3, hemail, relayEmailCheck, hem]
  · rw [validateForm]
    simp only [beq_eq_false_iff_ne, ne_eq]
    exact hcount

theorem relay_raw_truthiness_gap_witness :
    (serveHandler ⟨"POST", some ⟨some " ", some "a@b.c", some " ", some " "⟩⟩
        (some "k") (.ok "id1")).providerCalled = true ∧
    (serveHandler ⟨"POST", some ⟨some " ", some "a@b.c", some " ", some " "⟩⟩
        (some "k") (.ok "id1")).response.body ≠ some (.errorOnly "All fields are required") ∧
    (computeErrors ⟨" ", "a@b.c", " ", " "⟩).name = some "이름을 입력해주세요" ∧
    (computeErrors ⟨" ", "a@b.c", " ", " "⟩).subject = some "제목을 입력해주세요" ∧
    (computeErrors ⟨" ", "a@b.c", " ", " "⟩).message = some "메시지를 입력해주세요" ∧
    (validateForm ⟨" ", "a@b.c", " ", " "⟩).2 = false :=
  relay_raw_truthiness_gap " " " " " " "a@b.c" "k" (.ok "id1")
    (by decide) (by decide) (by decide) (by decide) (by decide) (by decide) (by decide)

end Welcome42
